import Mathlib

/-!
A verification development for the agent orchestration engine
(`textual_tui/orchestrator`): a shallow embedding of the state machine,
the budgeted-diff algorithm, the agent driver protocol, the subprocess
runner result handling, the event-log reader and the reviewer-output
validation, together with theorems settling the specification's claims.

Python strings are modelled by Lean `String`; machine integers do not
occur (all counters are unbounded Python ints, modelled by `Nat`/`Int`);
fallible operations return `Option`/`Except`; external processes
(git, gh, the agent CLIs) are modelled as oracle parameters.
-/

set_option maxRecDepth 8000

namespace VibeOrch

/-! ## Python string primitives

`pyUtf8Len` models `len(s.encode("utf-8"))`; `splitNlAux`/`pySplitNl`
model `s.split("\n")` (single-character separator, no run collapsing);
`joinNl` models `"\n".join(parts)`; `joinStr` models `"".join(parts)`;
`pyStartsWith` models `s.startswith(pre)`. -/

def pyUtf8Len (s : String) : Nat :=
  (s.data.map Char.utf8Size).sum

def splitNlAux : List Char → List Char → List String
  | [], acc => [String.mk acc.reverse]
  | c :: cs, acc =>
    if c = '\n' then String.mk acc.reverse :: splitNlAux cs []
    else splitNlAux cs (c :: acc)

def pySplitNl (s : String) : List String :=
  splitNlAux s.data []

def joinNl : List String → String
  | [] => ""
  | [a] => a
  | a :: rest => a ++ "\n" ++ joinNl rest

def joinStr : List String → String
  | [] => ""
  | a :: rest => a ++ joinStr rest

def pyStartsWith (s pre : String) : Bool :=
  pre.data.isPrefixOf s.data

/-! ## Git service: budgeted diff (`git_service.py` 253-333)

`truncate_hunks` embeds `GitService._truncate_hunks`; `result_parts`
and `get_budgeted_diff` embed `GitService.get_budgeted_diff`.  The
per-file diff text produced by `git diff -U3 <base>...HEAD -- <file>`
is an oracle `diffOf : String → String`, and the changed-file list
(the output of `get_changed_files`) is the input list `files`. -/

def truncHunksGo (maxHunks : Nat) : List String → Nat → List String
  | [], _ => []
  | line :: rest, hunkCount =>
    if pyStartsWith line "@@" then
      if hunkCount + 1 > maxHunks then ["[TRUNCATED_HUNKS]"]
      else line :: truncHunksGo maxHunks rest (hunkCount + 1)
    else
      line :: truncHunksGo maxHunks rest hunkCount

def truncate_hunks (diff : String) (maxHunks : Nat) : String :=
  joinNl (truncHunksGo maxHunks (pySplitNl diff) 0)

def budget_marker : String := "\n[TRUNCATED_DIFF_BUDGET]\n"

def omitted_header (k : Nat) : String :=
  "OMITTED_FILES_COUNT=" ++ toString k ++ "\n\n"

def budgetLoop (diffOf : String → String) (maxBytes maxHunks : Nat) :
    List String → Nat → List String
  | [], _ => []
  | f :: rest, total =>
    let td := truncate_hunks (diffOf f) maxHunks
    let db := pyUtf8Len td
    if total + db > maxBytes then [budget_marker]
    else td :: budgetLoop diffOf maxBytes maxHunks rest (total + db)

def result_parts (diffOf : String → String) (files : List String)
    (maxFiles maxBytes maxHunks : Nat) : List String :=
  let kept := if files.length > maxFiles then files.take maxFiles else files
  let omitted := if files.length > maxFiles then files.length - maxFiles else 0
  let parts := budgetLoop diffOf maxBytes maxHunks kept 0
  if omitted > 0 then omitted_header omitted :: parts else parts

def get_budgeted_diff (diffOf : String → String) (files : List String)
    (maxFiles maxBytes maxHunks : Nat) : String :=
  joinStr (result_parts diffOf files maxFiles maxBytes maxHunks)

/-- Number of lines of `s` (as Python `s.split("\n")`) starting with `"@@"`. -/
def hunkLineCount (s : String) : Nat :=
  ((pySplitNl s).filter (fun l => pyStartsWith l "@@")).length

/-! ## JSON values

Python objects produced by `json.loads` are modelled by `Json`.
Numbers are modelled as integers: the orchestrator's event lines and
agent outputs contain only strings, integers, booleans, arrays and
objects. -/

inductive Json where
  | null
  | bool (b : Bool)
  | num (n : Int)
  | str (s : String)
  | arr (xs : List Json)
  | obj (kvs : List (String × Json))

/-- Python truthiness of a JSON value (`if validation.data:` etc.). -/
def Json.truthy : Json → Bool
  | .null => false
  | .bool b => b
  | .num n => n != 0
  | .str s => s != ""
  | .arr xs => !xs.isEmpty
  | .obj kvs => !kvs.isEmpty

def Json.isStr : Json → Bool
  | .str _ => true
  | _ => false

/-- Python `v == s` for a JSON value `v` and a string literal `s`. -/
def Json.isStrEq : Json → String → Bool
  | .str t, s => t == s
  | _, _ => false

/-- Python `dict` lookup (`d[k]` / `d.get(k)`); `json.loads` yields
duplicate-free key lists, so first-match lookup is faithful. -/
def dictGet : List (String × Json) → String → Option Json
  | [], _ => none
  | (k, v) :: rest, key => if k = key then some v else dictGet rest key

/-- Python `d.get(k, default)`. -/
def dictGetD (kvs : List (String × Json)) (key : String) (d : Json) : Json :=
  (dictGet kvs key).getD d

/-! ## JSON text parsing (model of `json.loads`)

A recursive-descent parser for the JSON fragment the orchestrator
reads and writes (strings with the common escapes, integers, booleans,
null, arrays, objects).  `json.loads` raises `JSONDecodeError` exactly
where this parser returns `none` on such documents: in particular on
any truncated prefix of a serialized event line. -/

def lbrace : Char := Char.ofNat 123
def rbrace : Char := Char.ofNat 125

def isJsonWs (c : Char) : Bool := c = ' ' || c = '\n' || c = '\t' || c = '\r'

def skipWs (cs : List Char) : List Char := cs.dropWhile isJsonWs

/-- Parse the body of a JSON string after the opening quote. -/
def parseStringBody : List Char → Option (String × List Char)
  | [] => none
  | c :: cs =>
    if c = '"' then some ("", cs)
    else if c = '\\' then
      match cs with
      | [] => none
      | e :: cs' =>
        let ec : Option Char :=
          if e = '"' then some '"'
          else if e = '\\' then some '\\'
          else if e = '/' then some '/'
          else if e = 'n' then some '\n'
          else if e = 't' then some '\t'
          else if e = 'r' then some '\r'
          else none
        match ec with
        | none => none
        | some d =>
          match parseStringBody cs' with
          | some (s, rest) => some (String.mk (d :: s.data), rest)
          | none => none
    else
      match parseStringBody cs with
      | some (s, rest) => some (String.mk (c :: s.data), rest)
      | none => none

def digitsToNat (ds : List Char) : Nat :=
  ds.foldl (fun n c => n * 10 + (c.toNat - 48)) 0

mutual

def parseValue : Nat → List Char → Option (Json × List Char)
  | 0, _ => none
  | fuel + 1, cs0 =>
    match skipWs cs0 with
    | [] => none
    | c :: rest =>
      if c = '"' then
        match parseStringBody rest with
        | some (s, r) => some (.str s, r)
        | none => none
      else if c = lbrace then
        match skipWs rest with
        | [] => none
        | d :: rest2 =>
          if d = rbrace then some (.obj [], rest2)
          else
            match parseMembers fuel (d :: rest2) with
            | some (kvs, r) => some (.obj kvs, r)
            | none => none
      else if c = '[' then
        match skipWs rest with
        | [] => none
        | d :: rest2 =>
          if d = ']' then some (.arr [], rest2)
          else
            match parseElements fuel (d :: rest2) with
            | some (xs, r) => some (.arr xs, r)
            | none => none
      else if c = 't' then
        match rest with
        | 'r' :: 'u' :: 'e' :: r => some (.bool true, r)
        | _ => none
      else if c = 'f' then
        match rest with
        | 'a' :: 'l' :: 's' :: 'e' :: r => some (.bool false, r)
        | _ => none
      else if c = 'n' then
        match rest with
        | 'u' :: 'l' :: 'l' :: r => some (.null, r)
        | _ => none
      else if c = '-' then
        match rest.takeWhile Char.isDigit, rest.dropWhile Char.isDigit with
        | [], _ => none
        | ds, r => some (.num (-(digitsToNat ds : Int)), r)
      else if c.isDigit then
        match (c :: rest).takeWhile Char.isDigit, (c :: rest).dropWhile Char.isDigit with
        | ds, r => some (.num (digitsToNat ds), r)
      else none

def parseMembers : Nat → List Char → Option (List (String × Json) × List Char)
  | 0, _ => none
  | fuel + 1, cs =>
    match skipWs cs with
    | [] => none
    | c :: rest =>
      if c = '"' then
        match parseStringBody rest with
        | some (k, r1) =>
          match skipWs r1 with
          | ':' :: r2 =>
            match parseValue fuel r2 with
            | some (v, r3) =>
              match skipWs r3 with
              | ',' :: r4 =>
                match parseMembers fuel r4 with
                | some (kvs, r5) => some ((k, v) :: kvs, r5)
                | none => none
              | d :: r4 => if d = rbrace then some ([(k, v)], r4) else none
              | [] => none
            | none => none
          | _ => none
        | none => none
      else none

def parseElements : Nat → List Char → Option (List Json × List Char)
  | 0, _ => none
  | fuel + 1, cs =>
    match parseValue fuel cs with
    | some (v, r) =>
      match skipWs r with
      | ',' :: r2 =>
        match parseElements fuel r2 with
        | some (xs, r3) => some (v :: xs, r3)
        | none => none
      | ']' :: r2 => some ([v], r2)
      | _ => none
    | none => none

end

/-- Model of `json.loads`: parse one value, demand only whitespace after. -/
def jsonParse (s : String) : Option Json :=
  match parseValue (s.data.length + 1) s.data with
  | some (j, rest) => if (skipWs rest).isEmpty then some j else none
  | none => none

/-! ## Agent-output validation (`agents/validation.py`, `agents/schemas.py`)

`reviewer_schema_validate` embeds what `jsonschema.validate` checks for
the concrete `REVIEWER_SCHEMA` constant (draft 2020-12 `type: object`,
`properties`, `required`, `additionalProperties: false`, `const`, `enum`,
per-item object schemas).  `validate_json_output` embeds
`validation.validate_json_output` (generic: JSON parse, then schema
check), with the schema abstracted to its checking function.
`validate_reviewer_output_accepts` embeds the acceptance verdict of
`validation.validate_reviewer_output`, which adds the cross-field rule
rejecting `verdict == "approved"` with truthy `requested_changes`. -/

def requested_change_item_valid (j : Json) : Bool :=
  match j with
  | .obj kvs =>
    kvs.all (fun kv =>
      kv.1 = "id" || kv.1 = "path" || kv.1 = "description" || kv.1 = "acceptance") &&
    (match dictGet kvs "id" with | some v => v.isStr | none => false) &&
    (match dictGet kvs "path" with | some v => v.isStr | none => false) &&
    (match dictGet kvs "description" with | some v => v.isStr | none => false) &&
    (match dictGet kvs "acceptance" with | some v => v.isStr | none => false)
  | _ => false

def reviewer_schema_validate (j : Json) : Bool :=
  match j with
  | .obj kvs =>
    kvs.all (fun kv =>
      kv.1 = "type" || kv.1 = "verdict" || kv.1 = "requested_changes" || kv.1 = "notes") &&
    (match dictGet kvs "type" with | some v => v.isStrEq "reviewer_result" | none => false) &&
    (match dictGet kvs "verdict" with
     | some v => v.isStrEq "approved" || v.isStrEq "changes_requested"
     | none => false) &&
    (match dictGet kvs "requested_changes" with
     | some (.arr xs) => xs.all requested_change_item_valid
     | _ => false) &&
    (match dictGet kvs "notes" with
     | some (.arr xs) => xs.all Json.isStr
     | _ => false)
  | _ => false

/-- Result of `validate_json_output` (`raw_output` field omitted: the
driver never reads it). -/
structure VRes where
  valid : Bool
  data : Option Json
  error : Option String

def validate_json_output (schemaCheck : Json → Bool) (raw : String) : VRes :=
  match jsonParse raw with
  | none => { valid := false, data := none, error := some "Invalid JSON" }
  | some j =>
    if schemaCheck j then { valid := true, data := some j, error := none }
    else { valid := false, data := none, error := some "Schema validation failed" }

/-- Whether `validation.validate_reviewer_output` would return a valid
result for the parsed object `j` (the cross-field extra check on top of
the schema). -/
def approved_with_changes (j : Json) : Bool :=
  match j with
  | .obj kvs =>
    (match dictGet kvs "verdict" with | some v => v.isStrEq "approved" | none => false) &&
    (match dictGet kvs "requested_changes" with | some v => v.truthy | none => false)
  | _ => false

def validate_reviewer_output_accepts (j : Json) : Bool :=
  reviewer_schema_validate j && !(approved_with_changes j)

/-! ## Event log reading (`events.py` 76-84, `persistence.py` 308-318) -/

inductive EventType where
  | run_created | state_changed
  | process_started | process_line | process_exited
  | agent_output_received | agent_output_validated | agent_output_invalid
  | agent_repair_requested
  | worktree_created | commit_created | push_completed
  | pr_created | pr_updated | comment_created | comment_updated
  | error_occurred | timeout_occurred
  | run_approved | run_failed | run_cancelled
deriving DecidableEq

/-- Model of the `EventType(value)` enum constructor (raises on an
unknown value, modelled by `none`). -/
def eventTypeOfString (s : String) : Option EventType :=
  if s = "run_created" then some .run_created
  else if s = "state_changed" then some .state_changed
  else if s = "process_started" then some .process_started
  else if s = "process_line" then some .process_line
  else if s = "process_exited" then some .process_exited
  else if s = "agent_output_received" then some .agent_output_received
  else if s = "agent_output_validated" then some .agent_output_validated
  else if s = "agent_output_invalid" then some .agent_output_invalid
  else if s = "agent_repair_requested" then some .agent_repair_requested
  else if s = "worktree_created" then some .worktree_created
  else if s = "commit_created" then some .commit_created
  else if s = "push_completed" then some .push_completed
  else if s = "pr_created" then some .pr_created
  else if s = "pr_updated" then some .pr_updated
  else if s = "comment_created" then some .comment_created
  else if s = "comment_updated" then some .comment_updated
  else if s = "error_occurred" then some .error_occurred
  else if s = "timeout_occurred" then some .timeout_occurred
  else if s = "run_approved" then some .run_approved
  else if s = "run_failed" then some .run_failed
  else if s = "run_cancelled" then some .run_cancelled
  else none

structure PEvent where
  type : EventType
  ts : Json
  data : Json

/-- `Event.from_json`: `json.loads`, then `EventType(obj["type"])`,
`obj["ts"]`, `obj.get("data", {})`.  `.error` models the raised
exception. -/
def event_from_json (line : String) : Except String PEvent :=
  match jsonParse line with
  | none => .error "Invalid JSON"
  | some (.obj kvs) =>
    match dictGet kvs "type" with
    | none => .error "KeyError: type"
    | some (.str s) =>
      match eventTypeOfString s with
      | none => .error "ValueError: EventType"
      | some ty =>
        match dictGet kvs "ts" with
        | none => .error "KeyError: ts"
        | some ts => .ok { type := ty, ts := ts, data := dictGetD kvs "data" (.obj []) }
    | some _ => .error "ValueError: EventType"
  | some _ => .error "TypeError"

/-- Python `line.strip()` (for the whitespace that occurs in the log). -/
def pyStrip (s : String) : String :=
  String.mk (((s.data.dropWhile isJsonWs).reverse.dropWhile isJsonWs).reverse)

def read_events_lines : List String → Except String (List PEvent)
  | [] => .ok []
  | line :: rest =>
    let l := pyStrip line
    if l = "" then read_events_lines rest
    else
      match event_from_json l with
      | .error e => .error e
      | .ok ev =>
        match read_events_lines rest with
        | .error e => .error e
        | .ok evs => .ok (ev :: evs)

/-- `RunPersistence.read_events` on the text of `events.jsonl`
(file iteration yields the same stripped lines as splitting on `"\n"`). -/
def read_events (content : String) : Except String (List PEvent) :=
  read_events_lines (pySplitNl content)

def exceptIsOk {α : Type} (e : Except String α) : Bool :=
  match e with
  | .ok _ => true
  | .error _ => false

/-- A log line is harmless for `read_events`: blank after stripping, or
parsed by `Event.from_json`. -/
def line_ok (line : String) : Bool :=
  (pyStrip line == "") || exceptIsOk (event_from_json (pyStrip line))

/-! ## Orchestration engine (`engine.py`, `persistence.py`)

A functional model of `OrchestrationEngine`.  The run snapshot and
artifacts mirror the `RunSnapshot` and `Artifacts` dataclasses; the
engine's in-memory `self._commit_message` attribute is the separate
`commitMessageAttr` field of the trace (it is *not* part of the
snapshot, exactly as in the source).  External services are an oracle
`Env`, indexed by per-service call counters kept in the trace; the git
and GitHub oracles model successful calls (no claim here concerns a
failing git/gh call), while agent-driver calls can succeed, time out
or raise.  Events carry the payload fields the claims inspect; the
`process_line` events streamed by a live agent subprocess are emitted
inside the driver and are outside this engine model. -/

inductive RunState where
  | CREATED | PREPARE_WORKSPACE | IMPLEMENTER_RUNNING | COMMIT_PUSH_PR
  | REVIEWER_RUNNING | CHANGES_REQUESTED | APPROVED | FAILED | CANCELLED
deriving DecidableEq

/-- `RunState.is_terminal` (`persistence.py` 37-40). -/
def RunState.is_terminal : RunState → Bool
  | .APPROVED | .FAILED | .CANCELLED => true
  | _ => false

/-- `TestResult` rows as the engine stores them: each field is the raw
value of `t.get(...)` with its default (`engine.py` 448-455). -/
structure TestResult where
  command : Json
  result : Json
  notes : Json

/-- `RequestedChange` rows as the engine stores them
(`engine.py` 595-603). -/
structure RequestedChange where
  id : Json
  path : Json
  description : Json
  acceptance : Json

structure Snapshot where
  runId : String
  task : String
  slug : String
  branch : String
  state : RunState
  iteration : Nat
  worktreePath : Option String
  prNumber : Option Nat
  prUrl : Option String
  coordCommentId : Option Nat
  lastImplementerSummary : Option Json
  lastImplementerTests : List TestResult
  lastReviewerVerdict : Option Json
  lastRequestedChanges : List RequestedChange
  failureReason : Option String

structure Artifacts where
  branch : String
  worktreePath : Option String
  prNumber : Option Nat
  prUrl : Option String
  coordCommentId : Option Nat
  lastCommitSha : Option String

/-- Events as appended to `events.jsonl` by the engine, with the
payload fields the claims inspect. -/
inductive EEvent where
  | run_created
  | state_changed (fromState toState : RunState) (reason : Option String)
  | run_approved (iteration : Nat)
  | run_failed (reason : String)
  | run_cancelled
deriving DecidableEq

/-- `EngineConfig` (`engine.py` 155-167); no field defaults here, the
defaults of the dataclass are irrelevant to the claims. -/
structure EngineConfig where
  repoRoot : String
  baseBranch : String
  remote : String
  implementerTimeout : Nat
  reviewerTimeout : Nat
  gitGhTimeout : Nat
  maxDiffFiles : Nat
  maxDiffBytes : Nat
  maxHunksPerFile : Nat

/-- Outcome of one `AgentDriver.run` call as the engine observes it:
validated output dict, `TimeoutError`, or `AgentError`. -/
inductive AgentCallResult where
  | ok (result : List (String × Json))
  | timedOut
  | agentError (msg : String)

/-- Oracle for the engine's service calls, indexed by the trace's
per-service call counters. -/
structure Env where
  implResult : Nat → AgentCallResult
  revResult : Nat → AgentCallResult
  hasChanges : Nat → Bool
  commitSha : Nat → String
  findPr : Nat → Option (Nat × String)
  createPr : Nat → Nat × String
  createComment : Nat → Nat

structure ETrace where
  snapshot : Snapshot
  artifacts : Artifacts
  commitMessageAttr : Option Json
  cancelledFlag : Bool
  events : List EEvent
  worktreeOnDisk : Bool
  implCalls : Nat
  revCalls : Nat
  hasChangesCalls : Nat
  commitCalls : Nat
  findPrCalls : Nat
  createPrCalls : Nat
  createCommentCalls : Nat
  updateCommentCalls : Nat
  commitMessagesUsed : List Json
  pushInvocations : List (List String)

/-- `OrchestrationEngine._transition_to` (event, then snapshot save). -/
def transition_to (es : ETrace) (newState : RunState) (reason : Option String) : ETrace :=
  { es with
    snapshot := { es.snapshot with state := newState },
    events := es.events ++ [.state_changed es.snapshot.state newState reason] }

def emit (es : ETrace) (e : EEvent) : ETrace :=
  { es with events := es.events ++ [e] }

/-- `OrchestrationEngine._handle_failure`. -/
def handle_failure (es : ETrace) (reason : String) : ETrace :=
  let es1 := { es with snapshot := { es.snapshot with failureReason := some reason } }
  emit (transition_to es1 .FAILED (some reason)) (.run_failed reason)

/-- The `remote` parameter default of `GitService.push`
(`git_service.py` 171-176). -/
def push_default_remote : String := "origin"

/-- The argv (after `git`) that `GitService.push` runs. -/
def push_invocation (remote branch : String) : List String :=
  ["push", "-u", remote, branch]

/-- One row of the `TestResult(...)` comprehension (`engine.py`
448-455); a non-dict element raises (`none`). -/
def test_of_json : Json → Option TestResult
  | .obj kvs =>
    some ⟨dictGetD kvs "command" (.str ""), dictGetD kvs "result" (.str "not_run"),
          dictGetD kvs "notes" (.str "")⟩
  | _ => none

/-- One row of the `RequestedChange(...)` comprehension (`engine.py`
595-603); a non-dict element raises (`none`). -/
def change_of_json : Json → Option RequestedChange
  | .obj kvs =>
    some ⟨dictGetD kvs "id" (.str ""), dictGetD kvs "path" (.str "*"),
          dictGetD kvs "description" (.str ""), dictGetD kvs "acceptance" (.str "")⟩
  | _ => none

/-- `result.get("tests", [])` then the comprehension. -/
def extract_tests (r : List (String × Json)) : Option (List TestResult) :=
  match dictGet r "tests" with
  | none => some []
  | some (.arr xs) => xs.mapM test_of_json
  | some _ => none

/-- `result.get("requested_changes", [])` then the comprehension. -/
def extract_changes (r : List (String × Json)) : Option (List RequestedChange) :=
  match dictGet r "requested_changes" with
  | none => some []
  | some (.arr xs) => xs.mapM change_of_json
  | some _ => none

/-- Result of one engine sub-step: success, or an exception caught by
`_step`'s handler, carrying the trace as mutated so far. -/
inductive StepRes where
  | ok (es : ETrace)
  | fail (es : ETrace) (reason : String)

/-- `OrchestrationEngine._prepare_workspace`: skip creation when the
worktree path already exists, else `git worktree add`; record the path
on artifacts and snapshot either way. -/
def prepare_workspace (es : ETrace) : ETrace :=
  let path := ".vibe-orchestrator/worktrees/" ++ es.snapshot.runId
  if es.worktreeOnDisk then
    { es with
      artifacts := { es.artifacts with worktreePath := some path },
      snapshot := { es.snapshot with worktreePath := some path } }
  else
    { es with
      worktreeOnDisk := true,
      artifacts := { es.artifacts with worktreePath := some path },
      snapshot := { es.snapshot with worktreePath := some path } }

/-- `OrchestrationEngine._run_implementer`. -/
def run_implementer (env : Env) (cfg : EngineConfig) (es : ETrace) : StepRes :=
  if !es.worktreeOnDisk then .fail es "Worktree does not exist"
  else
    let call := env.implResult es.implCalls
    let es1 := { es with implCalls := es.implCalls + 1 }
    match call with
    | .timedOut =>
      .fail es1 ("Implementer timed out after " ++ toString cfg.implementerTimeout ++ "s")
    | .agentError m => .fail es1 ("Implementer failed: " ++ m)
    | .ok r =>
      let es2 := { es1 with
        snapshot := { es1.snapshot with
          lastImplementerSummary := some (dictGetD r "summary" (.str "")) } }
      match extract_tests r with
      | none => .fail es2 "TypeError"
      | some ts =>
        let es3 := { es2 with snapshot := { es2.snapshot with lastImplementerTests := ts } }
        .ok { es3 with commitMessageAttr := some (dictGetD r "commit_message" (.str "Agent changes")) }

/-- `OrchestrationEngine._update_coordination_comment`. -/
def update_coordination_comment (env : Env) (es : ETrace) : ETrace :=
  match es.artifacts.prNumber with
  | none => es
  | some _ =>
    match es.artifacts.coordCommentId with
    | some _ => { es with updateCommentCalls := es.updateCommentCalls + 1 }
    | none =>
      let cid := env.createComment es.createCommentCalls
      { es with
        createCommentCalls := es.createCommentCalls + 1,
        artifacts := { es.artifacts with coordCommentId := some cid },
        snapshot := { es.snapshot with coordCommentId := some cid } }

/-- `OrchestrationEngine._commit_push_pr`. -/
def commit_push_pr (env : Env) (es : ETrace) : StepRes :=
  let hc := env.hasChanges es.hasChangesCalls
  let es1 := { es with hasChangesCalls := es.hasChangesCalls + 1 }
  if !hc then .fail es1 "Implementer made no changes"
  else
    let msg := es1.commitMessageAttr.getD (.str "Agent changes")
    let sha := env.commitSha es1.commitCalls
    let es2 := { es1 with
      commitCalls := es1.commitCalls + 1,
      commitMessagesUsed := es1.commitMessagesUsed ++ [msg],
      artifacts := { es1.artifacts with lastCommitSha := some sha } }
    let es3 := { es2 with
      pushInvocations :=
        es2.pushInvocations ++ [push_invocation push_default_remote es2.snapshot.branch] }
    let pr := env.findPr es3.findPrCalls
    let es4 := { es3 with findPrCalls := es3.findPrCalls + 1 }
    let next :=
      match pr with
      | some nu => (nu, es4)
      | none =>
        let nu := env.createPr es4.createPrCalls
        (nu, { es4 with createPrCalls := es4.createPrCalls + 1 })
    let es5 := next.2
    let es6 := { es5 with
      artifacts := { es5.artifacts with prNumber := some next.1.1, prUrl := some next.1.2 },
      snapshot := { es5.snapshot with prNumber := some next.1.1, prUrl := some next.1.2 } }
    .ok (update_coordination_comment env es6)

/-- `OrchestrationEngine._run_reviewer`. -/
def run_reviewer (env : Env) (cfg : EngineConfig) (es : ETrace) : StepRes :=
  if !es.worktreeOnDisk then .fail es "Worktree does not exist"
  else
    let call := env.revResult es.revCalls
    let es1 := { es with revCalls := es.revCalls + 1 }
    match call with
    | .timedOut =>
      .fail es1 ("Reviewer timed out after " ++ toString cfg.reviewerTimeout ++ "s")
    | .agentError m => .fail es1 ("Reviewer failed: " ++ m)
    | .ok r =>
      let verdict := dictGetD r "verdict" (.str "changes_requested")
      let es2 := { es1 with
        snapshot := { es1.snapshot with lastReviewerVerdict := some verdict } }
      match extract_changes r with
      | none => .fail es2 "TypeError"
      | some cs =>
        let es3 := { es2 with snapshot := { es2.snapshot with lastRequestedChanges := cs } }
        .ok (update_coordination_comment env es3)

/-- `OrchestrationEngine._step`. -/
def step (env : Env) (cfg : EngineConfig) (es : ETrace) : ETrace :=
  match es.snapshot.state with
  | .CREATED => transition_to es .PREPARE_WORKSPACE none
  | .PREPARE_WORKSPACE => transition_to (prepare_workspace es) .IMPLEMENTER_RUNNING none
  | .IMPLEMENTER_RUNNING =>
    match run_implementer env cfg es with
    | .fail es' r => handle_failure es' r
    | .ok es' => transition_to es' .COMMIT_PUSH_PR none
  | .COMMIT_PUSH_PR =>
    match commit_push_pr env es with
    | .fail es' r => handle_failure es' r
    | .ok es' => transition_to es' .REVIEWER_RUNNING none
  | .REVIEWER_RUNNING =>
    match run_reviewer env cfg es with
    | .fail es' r => handle_failure es' r
    | .ok es' =>
      if (es'.snapshot.lastReviewerVerdict.getD .null).isStrEq "approved" then
        let es'' := transition_to es' .APPROVED none
        emit es'' (.run_approved es''.snapshot.iteration)
      else transition_to es' .CHANGES_REQUESTED none
  | .CHANGES_REQUESTED =>
    let es' := { es with snapshot := { es.snapshot with iteration := es.snapshot.iteration + 1 } }
    transition_to es' .IMPLEMENTER_RUNNING
      (some ("Iteration " ++ toString es'.snapshot.iteration ++ ": addressing requested changes"))
  | .APPROVED => es
  | .FAILED => es
  | .CANCELLED => es

/-- The `while` loop of `OrchestrationEngine.run`, with explicit fuel
(the source loop runs until the condition turns false; every theorem
below holds for every sufficient fuel). -/
def loopGo (env : Env) (cfg : EngineConfig) : Nat → ETrace → ETrace
  | 0, es => es
  | n + 1, es =>
    if es.snapshot.state.is_terminal || es.cancelledFlag then es
    else loopGo env cfg n (step env cfg es)

/-- `OrchestrationEngine.run`: the loop, then the post-loop
cancellation check. -/
def engine_run (env : Env) (cfg : EngineConfig) (fuel : Nat) (es : ETrace) : ETrace :=
  let es' := loopGo env cfg fuel es
  if es'.cancelledFlag && !es'.snapshot.state.is_terminal then
    emit (transition_to es' .CANCELLED none) .run_cancelled
  else es'

/-- The trace right after `create_run` (registry writes the initial
CREATED snapshot and artifacts; the engine emits `run_created`).
`worktreePre` records whether the worktree path already exists on
disk. -/
def initial_trace (runId task slug branch : String) (worktreePre : Bool) : ETrace :=
  { snapshot :=
      { runId := runId, task := task, slug := slug, branch := branch,
        state := .CREATED, iteration := 0, worktreePath := none,
        prNumber := none, prUrl := none, coordCommentId := none,
        lastImplementerSummary := none, lastImplementerTests := [],
        lastReviewerVerdict := none, lastRequestedChanges := [],
        failureReason := none },
    artifacts :=
      { branch := branch, worktreePath := none, prNumber := none,
        prUrl := none, coordCommentId := none, lastCommitSha := none },
    commitMessageAttr := none, cancelledFlag := false,
    events := [.run_created], worktreeOnDisk := worktreePre,
    implCalls := 0, revCalls := 0, hasChangesCalls := 0, commitCalls := 0,
    findPrCalls := 0, createPrCalls := 0, createCommentCalls := 0,
    updateCommentCalls := 0, commitMessagesUsed := [], pushInvocations := [] }

/-- `load_run` on a fresh engine instance after a crash: snapshot and
artifacts come back from disk, the in-memory `_commit_message`
attribute does not exist, and `_cancelled` is reset. -/
def resume_trace (es : ETrace) : ETrace :=
  { es with commitMessageAttr := none, cancelledFlag := false }

/-! ## Subprocess runner (`subprocess_runner.py` 54-193)

`SubprocessRunner.run` is modelled on the child process's observable
behaviour: it either exits (with some code, having emitted some
stdout/stderr lines), hangs until the timeout fires, or the
surrounding task is cancelled.  The buffered streams are
`"\n".join(lines)`; the `try/except TimeoutError` at the end of `run`
turns the timeout into a returned result with the `-1` sentinel, while
`CancelledError` propagates. -/

structure PResult where
  exitCode : Int
  stdout : String
  stderr : String
  timedOut : Bool

inductive ChildBehavior where
  | completes (exitCode : Int) (outLines errLines : List String)
  | hangsTillTimeout (outLines errLines : List String)
  | externallyCancelled (outLines errLines : List String)

inductive RunnerRaise where
  | cancelled

/-- `SubprocessRunner.run`. -/
def subprocess_run : ChildBehavior → Except RunnerRaise PResult
  | .completes ec o e =>
    .ok { exitCode := ec, stdout := joinNl o, stderr := joinNl e, timedOut := false }
  | .hangsTillTimeout o e =>
    .ok { exitCode := -1, stdout := joinNl o, stderr := joinNl e, timedOut := true }
  | .externallyCancelled _ _ => .error .cancelled

/-! ## Agent driver run protocol (`agents/base.py` 105-219,
`agents/validation.py` 112-154)

`driver_run` embeds `AgentDriver.run`.  The agent subprocess results
per invocation are the oracle `proc`, `extract_output` per invocation
is the oracle `extractO` (it reads stdout/stderr/the output file), and
schema validation is the oracle `validateO` (instantiated with
`validate_json_output` composed with a schema check).  The returned
list records every agent invocation as `(prompt, timeout)`, in order. -/

/-- Python `validation.error or "Unknown error"`. -/
def pyOrElse (s : Option String) (d : String) : String :=
  match s with
  | none => d
  | some t => if t = "" then d else t

/-- Python f-string rendering of an `Optional[str]` (`None` prints as
`"None"`). -/
def pyNoneStr : Option String → String
  | none => "None"
  | some e => e

/-- Python `validation.valid and validation.data` (dict truthiness). -/
def vAccepts (v : VRes) : Bool :=
  v.valid && (match v.data with | some d => d.truthy | none => false)

/-- `validation.build_repair_prompt` (the `role` argument is accepted
and unused, as in the source; `schemaStr` is `json.dumps(schema,
indent=2)`). -/
def build_repair_prompt (role schemaStr rawOutput error : String) : String :=
  let _ := role
  "REPAIR OUTPUT\n\nYour previous output was invalid. Please fix it and output ONLY valid JSON.\n\n## Error\n"
    ++ error
    ++ "\n\n## Required Schema\n```json\n"
    ++ schemaStr
    ++ "\n```\n\n## Your Invalid Output\n```\n"
    ++ rawOutput
    ++ "\n```\n\n## Instructions\n1. Return ONLY valid JSON that conforms to the schema above.\n2. Do NOT include any prose, markdown formatting, or explanations.\n3. Do NOT wrap the JSON in code blocks.\n4. The output must be parseable as JSON directly.\n\nOutput the corrected JSON now:"

inductive DriverOutcome where
  | ok (data : Json)
  | timeoutError (msg : String)
  | agentError (msg : String) (rawOutput : Option String)

/-- `AgentDriver.run`. -/
def driver_run (proc : Nat → PResult) (extractO : Nat → String)
    (validateO : String → VRes) (role schemaStr prompt : String)
    (timeout : Nat) : DriverOutcome × List (String × Nat) :=
  let r1 := proc 0
  let inv1 := [(prompt, timeout)]
  if r1.timedOut then
    (.timeoutError ("Agent timed out after " ++ toString timeout ++ "s"), inv1)
  else if r1.exitCode != 0 then
    (.agentError ("Agent exited with code " ++ toString r1.exitCode ++ ": " ++ r1.stderr)
       (some r1.stdout), inv1)
  else
    let raw := extractO 0
    let v := validateO raw
    if vAccepts v then (.ok (v.data.getD .null), inv1)
    else
      let rp := build_repair_prompt role schemaStr raw (pyOrElse v.error "Unknown error")
      let inv2 := [(prompt, timeout), (rp, timeout)]
      let r2 := proc 1
      if r2.timedOut then
        (.timeoutError ("Agent repair timed out after " ++ toString timeout ++ "s"), inv2)
      else if r2.exitCode != 0 then
        (.agentError ("Agent repair exited with code " ++ toString r2.exitCode)
           (some r2.stdout), inv2)
      else
        let raw2 := extractO 1
        let v2 := validateO raw2
        if vAccepts v2 then (.ok (v2.data.getD .null), inv2)
        else
          (.agentError ("Agent output invalid after repair: " ++ pyNoneStr v2.error)
             (some raw2), inv2)

/-! ## Concrete instances used by the counterexamples and witnesses -/

/-- A reviewer output with `verdict: approved` and one requested
change: it satisfies `REVIEWER_SCHEMA` (a plain JSON Schema cannot
express the cross-field rule) yet violates the documented invariant. -/
def bad_reviewer_result : List (String × Json) :=
  [("type", .str "reviewer_result"),
   ("verdict", .str "approved"),
   ("requested_changes", .arr
     [.obj [("id", .str "C1"), ("path", .str "*"),
            ("description", .str "handle nil"), ("acceptance", .str "add guard")]]),
   ("notes", .arr [])]

/-- Its serialized form, as an agent would print it. -/
def bad_reviewer_raw : String :=
  "\x7b\"type\":\"reviewer_result\",\"verdict\":\"approved\",\"requested_changes\":[\x7b\"id\":\"C1\",\"path\":\"*\",\"description\":\"handle nil\",\"acceptance\":\"add guard\"\x7d],\"notes\":[]\x7d"

def default_cfg : EngineConfig :=
  { repoRoot := "/repo", baseBranch := "main", remote := "origin",
    implementerTimeout := 1800, reviewerTimeout := 900, gitGhTimeout := 120,
    maxDiffFiles := 25, maxDiffBytes := 200000, maxHunksPerFile := 8 }

def c1_env : Env :=
  { implResult := fun _ => .timedOut,
    revResult := fun _ => .ok bad_reviewer_result,
    hasChanges := fun _ => true,
    commitSha := fun _ => "cafe",
    findPr := fun _ => none,
    createPr := fun _ => (1, "https://example.test/pr/1"),
    createComment := fun _ => 7 }

/-- A run at `REVIEWER_RUNNING` (worktree present, PR and coordination
comment already recorded by `COMMIT_PUSH_PR`). -/
def c1_trace : ETrace :=
  let t := initial_trace "r1" "demo task" "demo-task" "agent/r1-demo-task" true
  { t with
    snapshot := { t.snapshot with
      state := .REVIEWER_RUNNING, worktreePath := some "wt",
      prNumber := some 1, coordCommentId := some 7 },
    artifacts := { t.artifacts with prNumber := some 1, coordCommentId := some 7 } }

/-- The happy-path service oracle of spec scenario 1. -/
def happy_env : Env :=
  { implResult := fun _ => .ok
      [("type", .str "implementer_result"),
       ("summary", .str "Implemented user authentication"),
       ("commit_message", .str "Add user authentication"),
       ("tests", .arr [.obj [("command", .str "pytest"), ("result", .str "pass")]]),
       ("notes", .arr [])],
    revResult := fun _ => .ok
      [("type", .str "reviewer_result"),
       ("verdict", .str "approved"),
       ("requested_changes", .arr []),
       ("notes", .arr [])],
    hasChanges := fun _ => true,
    commitSha := fun _ => "abc123",
    findPr := fun _ => none,
    createPr := fun _ => (42, "https://example.test/pr/42"),
    createComment := fun _ => 9001 }

def happy_trace : ETrace :=
  initial_trace "20260201-143012-a1b2c3d4" "Add user authentication"
    "add-user-authentication" "agent/20260201-143012-a1b2c3d4-add-user-authentication" false

/-- Implementer output whose commit message must survive a crash for
claim C3 to hold. -/
def c3_env : Env :=
  { implResult := fun _ => .ok
      [("type", .str "implementer_result"),
       ("summary", .str "Fixed the parser"),
       ("commit_message", .str "Fix parser"),
       ("tests", .arr []),
       ("notes", .arr [])],
    revResult := fun _ => .timedOut,
    hasChanges := fun _ => true,
    commitSha := fun _ => "beef",
    findPr := fun _ => none,
    createPr := fun _ => (5, "https://example.test/pr/5"),
    createComment := fun _ => 3 }

def c3_trace : ETrace :=
  let t := initial_trace "r3" "fix parser" "fix-parser" "agent/r3-fix-parser" true
  { t with snapshot := { t.snapshot with state := .IMPLEMENTER_RUNNING, worktreePath := some "wt" } }

/-- The trace a fresh engine sees after loading the C3 run that crashed
right after its implementer step. -/
def c3_resumed : ETrace := resume_trace (step c3_env default_cfg c3_trace)

/-- A complete event line followed by a partial trailing line, as left
by a kill between `append_event` writes. -/
def c5_line1 : String :=
  "\x7b\"type\":\"run_cancelled\",\"ts\":\"2026-02-01T14:30:12\",\"data\":\x7b\"run_id\":\"r5\"\x7d\x7d"

def c5_partial : String :=
  "\x7b\"type\":\"run_created\",\"ts\":\"2026-02-01T14:3"

def c5_content : String := c5_line1 ++ "\n" ++ c5_partial

/-! # Theorems -/

/-! ## Engine loop lemmas -/

lemma loopGo_halt (env : Env) (cfg : EngineConfig) :
    ∀ (n : Nat) (es : ETrace),
      (es.snapshot.state.is_terminal || es.cancelledFlag) = true →
      loopGo env cfg n es = es := by
  intro n es h
  cases n with
  | zero => rfl
  | succ n => simp [loopGo, h]

lemma loopGo_succ (env : Env) (cfg : EngineConfig) (n : Nat) (es : ETrace) :
    loopGo env cfg (n + 1) es =
      if es.snapshot.state.is_terminal || es.cancelledFlag then es
      else loopGo env cfg n (step env cfg es) := rfl

lemma loopGo_append (env : Env) (cfg : EngineConfig) :
    ∀ (a b : Nat) (es : ETrace),
      loopGo env cfg (a + b) es = loopGo env cfg b (loopGo env cfg a es) := by
  intro a
  induction a with
  | zero => intro b es; simp [loopGo]
  | succ a ih =>
    intro b es
    rw [Nat.succ_add, loopGo_succ, loopGo_succ]
    by_cases h : (es.snapshot.state.is_terminal || es.cancelledFlag) = true
    · simp [h, loopGo_halt env cfg b es h]
    · simp only [Bool.not_eq_true] at h
      simp [h, ih]

/-- C9 helper: a terminal run never leaves `OrchestrationEngine.run`'s
loop and the post-loop cancellation check does not fire. -/
lemma engine_run_terminal (env : Env) (cfg : EngineConfig) (fuel : Nat) (es : ETrace)
    (h : es.snapshot.state.is_terminal = true) :
    engine_run env cfg fuel es = es := by
  unfold engine_run
  rw [loopGo_halt env cfg fuel es (by simp [h])]
  simp [h]

/-- C9: once a run's state is terminal (APPROVED, FAILED or CANCELLED),
any invocation of the engine loop — with any service oracle, any
configuration and any fuel, including on a snapshot freshly loaded
from disk — leaves the run (state, events, artifacts, everything)
unchanged. -/
theorem c9_terminal_stable (env : Env) (cfg : EngineConfig) (fuel : Nat) (es : ETrace)
    (h : es.snapshot.state.is_terminal = true) :
    engine_run env cfg fuel es = es ∧
    (engine_run env cfg fuel es).snapshot.state = es.snapshot.state ∧
    engine_run env cfg fuel (resume_trace es) = resume_trace es :=
  ⟨engine_run_terminal env cfg fuel es h,
   by rw [engine_run_terminal env cfg fuel es h],
   engine_run_terminal env cfg fuel (resume_trace es) h⟩

theorem c9_terminal_stable_witness :
    ({ happy_trace with
        snapshot := { happy_trace.snapshot with state := .APPROVED } } : ETrace).snapshot.state.is_terminal = true ∧
    engine_run happy_env default_cfg 9
        { happy_trace with snapshot := { happy_trace.snapshot with state := .APPROVED } } =
      { happy_trace with snapshot := { happy_trace.snapshot with state := .APPROVED } } :=
  ⟨rfl,
   (c9_terminal_stable happy_env default_cfg 9
     { happy_trace with snapshot := { happy_trace.snapshot with state := .APPROVED } } rfl).1⟩

/-- C8: if cancellation was requested and the run is not terminal, the
engine's next between-step check drives the run to CANCELLED (never
FAILED) and appends the state-change plus a `run_cancelled` event. -/
theorem c8_cancellation (env : Env) (cfg : EngineConfig) (fuel : Nat) (es : ETrace)
    (hc : es.cancelledFlag = true)
    (ht : es.snapshot.state.is_terminal = false) :
    (engine_run env cfg fuel es).snapshot.state = .CANCELLED ∧
    (engine_run env cfg fuel es).events =
      es.events ++ [.state_changed es.snapshot.state .CANCELLED none, .run_cancelled] ∧
    (engine_run env cfg fuel es).snapshot.state ≠ .FAILED := by
  unfold engine_run
  rw [loopGo_halt env cfg fuel es (by simp [hc])]
  simp [hc, ht, transition_to, emit]

theorem c8_cancellation_witness :
    ({ c1_trace with cancelledFlag := true } : ETrace).cancelledFlag = true ∧
    ({ c1_trace with cancelledFlag := true } : ETrace).snapshot.state.is_terminal = false ∧
    (engine_run c1_env default_cfg 4 { c1_trace with cancelledFlag := true }).snapshot.state =
      .CANCELLED :=
  ⟨rfl, rfl,
   (c8_cancellation c1_env default_cfg 4 { c1_trace with cancelledFlag := true } rfl rfl).1⟩

/-! ## C1: approved verdict with non-empty requested changes -/

/-- C1: the run protocol does *not* reject a reviewer output with
verdict `approved` and a non-empty `requested_changes` array.
`bad_reviewer_result` passes the plain JSON-Schema validation that
`AgentDriver.run` performs (`validate_json_output` with
`REVIEWER_SCHEMA`), so the driver returns it as validated output —
even though the unused helper `validate_reviewer_output` (and the
repo's own test `test_approved_with_changes_is_invalid`) reject it —
and the engine then transitions the run to APPROVED while the stored
`requested_changes` list is non-empty, violating invariant (I6). -/
theorem c1_approved_with_changes_bug :
    reviewer_schema_validate (.obj bad_reviewer_result) = true ∧
    validate_reviewer_output_accepts (.obj bad_reviewer_result) = false ∧
    (driver_run
        (fun _ => { exitCode := 0, stdout := bad_reviewer_raw, stderr := "", timedOut := false })
        (fun _ => bad_reviewer_raw)
        (validate_json_output reviewer_schema_validate)
        "reviewer" "schema" "review prompt" 900).1 = .ok (.obj bad_reviewer_result) ∧
    (step c1_env default_cfg c1_trace).snapshot.state = .APPROVED ∧
    (step c1_env default_cfg c1_trace).snapshot.lastRequestedChanges.isEmpty = false ∧
    (step c1_env default_cfg c1_trace).snapshot.lastReviewerVerdict = some (.str "approved") :=
  ⟨rfl, rfl, rfl, rfl, rfl, rfl⟩

/-! ## C5: partial trailing line in events.jsonl -/

/-- C5 counterexample: on a log whose first line is a complete event
and whose final line is a truncated prefix of an event, `read_events`
raises (propagates the `json.loads` error) instead of skipping the
partial trailing line and returning the first event. -/
theorem c5_counterexample :
    event_from_json c5_line1 =
      .ok ⟨.run_cancelled, .str "2026-02-01T14:30:12", .obj [("run_id", .str "r5")]⟩ ∧
    read_events c5_content = .error "Invalid JSON" :=
  ⟨rfl, rfl⟩

lemma read_events_lines_ok_iff :
    ∀ ls : List String, exceptIsOk (read_events_lines ls) = ls.all line_ok := by
  intro ls
  induction ls with
  | nil => rfl
  | cons line rest ih =>
    rw [List.all_cons]
    by_cases h : pyStrip line = ""
    · have hb : line_ok line = true := by simp [line_ok, h]
      rw [hb, Bool.true_and, ← ih]
      simp [read_events_lines, h]
    · cases he : event_from_json (pyStrip line) with
      | error e =>
        have hb : line_ok line = false := by simp [line_ok, h, he, exceptIsOk]
        rw [hb, Bool.false_and]
        simp [read_events_lines, h, he, exceptIsOk]
      | ok ev =>
        have hb : line_ok line = true := by simp [line_ok, h, he, exceptIsOk]
        rw [hb, Bool.true_and, ← ih]
        cases hr : read_events_lines rest with
        | error e => simp [read_events_lines, h, he, hr, exceptIsOk]
        | ok evs => simp [read_events_lines, h, he, hr, exceptIsOk]

/-- C5 amended: `read_events` skips blank (whitespace-only) lines —
including the empty trailing line after a final newline — but does
*not* tolerate a partial non-JSON trailing line: it succeeds exactly
when every non-blank stripped line parses as an event, and otherwise
propagates `Event.from_json`'s error. -/
theorem c5_amended (content : String) :
    exceptIsOk (read_events content) = (pySplitNl content).all line_ok :=
  read_events_lines_ok_iff (pySplitNl content)

/-! ## C6: one repair attempt, same timeout -/

/-- C6: when the first extracted output fails validation (and the first
process neither timed out nor exited non-zero), `AgentDriver.run`
invokes the agent exactly once more — with the repair prompt and the
same timeout, never a third time — and if the second output also fails
validation it raises `AgentError` carrying the latest raw output. -/
theorem c6_repair_protocol (proc : Nat → PResult) (extractO : Nat → String)
    (validateO : String → VRes) (role schemaStr prompt : String) (timeout : Nat)
    (h1 : (proc 0).timedOut = false) (h2 : (proc 0).exitCode = 0)
    (h3 : vAccepts (validateO (extractO 0)) = false)
    (h4 : (proc 1).timedOut = false) (h5 : (proc 1).exitCode = 0)
    (h6 : vAccepts (validateO (extractO 1)) = false) :
    (driver_run proc extractO validateO role schemaStr prompt timeout).2 =
      [(prompt, timeout),
       (build_repair_prompt role schemaStr (extractO 0)
          (pyOrElse (validateO (extractO 0)).error "Unknown error"), timeout)] ∧
    (driver_run proc extractO validateO role schemaStr prompt timeout).1 =
      .agentError
        ("Agent output invalid after repair: " ++ pyNoneStr (validateO (extractO 1)).error)
        (some (extractO 1)) := by
  unfold driver_run
  simp [h1, h2, h3, h4, h5, h6]

theorem c6_repair_protocol_witness :
    vAccepts ((fun _ : String => ({ valid := false, data := none, error := some "Invalid JSON" } : VRes)) "garbage") = false ∧
    ((driver_run (fun _ => { exitCode := 0, stdout := "garbage", stderr := "", timedOut := false })
        (fun _ => "garbage")
        (fun _ => { valid := false, data := none, error := some "Invalid JSON" })
        "implementer" "SCHEMA" "do the task" 1800).2 =
      [("do the task", 1800),
       (build_repair_prompt "implementer" "SCHEMA" "garbage" "Invalid JSON", 1800)] ∧
    (driver_run (fun _ => { exitCode := 0, stdout := "garbage", stderr := "", timedOut := false })
        (fun _ => "garbage")
        (fun _ => { valid := false, data := none, error := some "Invalid JSON" })
        "implementer" "SCHEMA" "do the task" 1800).1 =
      .agentError "Agent output invalid after repair: Invalid JSON" (some "garbage")) :=
  ⟨rfl,
   c6_repair_protocol
     (fun _ => { exitCode := 0, stdout := "garbage", stderr := "", timedOut := false })
     (fun _ => "garbage")
     (fun _ => { valid := false, data := none, error := some "Invalid JSON" })
     "implementer" "SCHEMA" "do the task" 1800 rfl rfl rfl rfl rfl rfl⟩

/-! ## C7: subprocess runner result handling -/

/-- C7: the runner returns normally on a non-zero child exit, carrying
the exit code and the buffered line-joined stdout/stderr with
`timed_out = false`; on timeout it returns (rather than raising) a
result with `timed_out = true` and the negative sentinel exit code
`-1`. -/
theorem c7_runner_result :
    (∀ (ec : Int) (o e : List String), ec ≠ 0 →
      subprocess_run (.completes ec o e) =
        .ok { exitCode := ec, stdout := joinNl o, stderr := joinNl e, timedOut := false }) ∧
    (∀ o e : List String,
      subprocess_run (.hangsTillTimeout o e) =
        .ok { exitCode := -1, stdout := joinNl o, stderr := joinNl e, timedOut := true } ∧
      (-1 : Int) < 0) :=
  ⟨fun _ _ _ _ => rfl, fun _ _ => ⟨rfl, by decide⟩⟩

theorem c7_runner_result_witness :
    (3 : Int) ≠ 0 ∧
    subprocess_run (.completes 3 ["fatal: oops"] ["err"]) =
      .ok { exitCode := 3, stdout := "fatal: oops", stderr := "err", timedOut := false } :=
  ⟨by decide, c7_runner_result.1 3 ["fatal: oops"] ["err"] (by decide)⟩

/-! ## C2 / C3 counterexamples -/

/-- C2 counterexample: in the happy-path run (one passing implementer
round, first reviewer verdict `approved`), the engine reaches APPROVED
at iteration 0 with exactly one PR and one coordination comment — but
the coordination comment *is* updated (once, by `_run_reviewer`),
refuting "that comment is never updated". -/
theorem c2_counterexample :
    (engine_run happy_env default_cfg 5 happy_trace).snapshot.state = .APPROVED ∧
    (engine_run happy_env default_cfg 5 happy_trace).updateCommentCalls = 1 ∧
    ¬ (engine_run happy_env default_cfg 5 happy_trace).updateCommentCalls = 0 :=
  ⟨rfl, rfl, by decide⟩

/-- C3 counterexample: the implementer's commit message lands on the
engine attribute, not the snapshot; after a crash and resume the
COMMIT_PUSH_PR step commits with the default "Agent changes" instead
of the implementer's "Fix parser". -/
theorem c3_counterexample :
    (step c3_env default_cfg c3_trace).snapshot.state = .COMMIT_PUSH_PR ∧
    (step c3_env default_cfg c3_trace).commitMessageAttr = some (.str "Fix parser") ∧
    (step c3_env default_cfg
        (resume_trace (step c3_env default_cfg c3_trace))).commitMessagesUsed =
      [.str "Agent changes"] :=
  ⟨rfl, rfl, rfl⟩

/-! ## C4: budgeted diff -/

lemma string_mk_data (s : String) : String.mk s.data = s := by
  cases s; rfl

lemma string_data_append (a b : String) : (a ++ b).data = a.data ++ b.data := by
  cases a; cases b; rfl

lemma isPrefixOf_self_append (l r : List Char) : l.isPrefixOf (l ++ r) = true := by
  induction l with
  | nil => simp [List.isPrefixOf]
  | cons a as ih => simp [List.isPrefixOf, ih]

lemma splitNlAux_chunk :
    ∀ (xs : List Char), '\n' ∉ xs → ∀ (cs acc : List Char),
      splitNlAux (xs ++ cs) acc = splitNlAux cs (xs.reverse ++ acc) := by
  intro xs
  induction xs with
  | nil => intro _ cs acc; simp
  | cons x xs ih =>
    intro h cs acc
    have hx : ¬ x = '\n' := fun he => h (he ▸ List.mem_cons_self x xs)
    have hxs : '\n' ∉ xs := fun hm => h (List.mem_cons_of_mem x hm)
    simp only [List.cons_append, splitNlAux, if_neg hx]
    show splitNlAux (xs ++ cs) (x :: acc) = splitNlAux cs ((x :: xs).reverse ++ acc)
    rw [ih hxs cs (x :: acc)]
    congr 1
    simp

lemma splitNlAux_ne_nil : ∀ (cs acc : List Char), splitNlAux cs acc ≠ [] := by
  intro cs
  induction cs with
  | nil => intro acc; simp [splitNlAux]
  | cons c cs ih =>
    intro acc
    by_cases h : c = '\n'
    · simp [splitNlAux, h]
    · simp only [splitNlAux, if_neg h]
      exact ih (c :: acc)

lemma pySplitNl_ne_nil (s : String) : pySplitNl s ≠ [] :=
  splitNlAux_ne_nil s.data []

lemma splitNlAux_mem_no_nl :
    ∀ (cs acc : List Char), '\n' ∉ acc →
      ∀ p ∈ splitNlAux cs acc, '\n' ∉ p.data := by
  intro cs
  induction cs with
  | nil =>
    intro acc hacc p hp
    simp only [splitNlAux, List.mem_singleton] at hp
    subst hp
    simpa using hacc
  | cons c cs ih =>
    intro acc hacc p hp
    by_cases h : c = '\n'
    · simp only [splitNlAux, if_pos h, List.mem_cons] at hp
      rcases hp with hp | hp
      · subst hp; simpa using hacc
      · exact ih [] (by simp) p hp
    · simp only [splitNlAux, if_neg h] at hp
      exact ih (c :: acc) (by simp [hacc, Ne.symm h, h]) p hp

lemma pySplitNl_mem_no_nl (s : String) : ∀ p ∈ pySplitNl s, '\n' ∉ p.data :=
  splitNlAux_mem_no_nl s.data [] (by simp)

lemma pySplitNl_single (s : String) (h : '\n' ∉ s.data) : pySplitNl s = [s] := by
  unfold pySplitNl
  have := splitNlAux_chunk s.data h [] []
  simp only [List.append_nil] at this
  rw [this]
  simp [splitNlAux, string_mk_data]

lemma pySplitNl_joinNl :
    ∀ parts : List String, parts ≠ [] → (∀ p ∈ parts, '\n' ∉ p.data) →
      pySplitNl (joinNl parts) = parts := by
  intro parts
  induction parts with
  | nil => intro h; exact absurd rfl h
  | cons a rest ih =>
    intro _ hmem
    cases rest with
    | nil => exact pySplitNl_single a (hmem a (by simp))
    | cons b l =>
      have ha : '\n' ∉ a.data := hmem a (by simp)
      have hrest : ∀ p ∈ b :: l, '\n' ∉ p.data := fun p hp => hmem p (List.mem_cons_of_mem a hp)
      show pySplitNl (a ++ "\n" ++ joinNl (b :: l)) = a :: b :: l
      unfold pySplitNl
      rw [string_data_append, string_data_append]
      have hdn : ("\n" : String).data = ['\n'] := rfl
      rw [hdn, List.append_assoc]
      rw [splitNlAux_chunk a.data ha (['\n'] ++ (joinNl (b :: l)).data) []]
      have := ih (by simp) hrest
      unfold pySplitNl at this
      simp [splitNlAux, string_mk_data, this]

lemma truncHunksGo_mem (maxHunks : Nat) :
    ∀ (lines : List String) (k : Nat) (p : String),
      p ∈ truncHunksGo maxHunks lines k → p ∈ lines ∨ p = "[TRUNCATED_HUNKS]" := by
  intro lines
  induction lines with
  | nil => intro k p hp; simp [truncHunksGo] at hp
  | cons line rest ih =>
    intro k p hp
    by_cases hs : pyStartsWith line "@@" = true
    · by_cases hc : k + 1 > maxHunks
      · simp only [truncHunksGo, if_pos hs, if_pos hc, List.mem_singleton] at hp
        exact Or.inr hp
      · simp only [truncHunksGo, if_pos hs, if_neg hc, List.mem_cons] at hp
        rcases hp with hp | hp
        · exact Or.inl (by simp [hp])
        · rcases ih (k + 1) p hp with h | h
          · exact Or.inl (List.mem_cons_of_mem line h)
          · exact Or.inr h
    · simp only [truncHunksGo, if_neg hs, List.mem_cons] at hp
      rcases hp with hp | hp
      · exact Or.inl (by simp [hp])
      · rcases ih k p hp with h | h
        · exact Or.inl (List.mem_cons_of_mem line h)
        · exact Or.inr h

lemma truncHunksGo_ne_nil (maxHunks : Nat) (line : String) (rest : List String) (k : Nat) :
    truncHunksGo maxHunks (line :: rest) k ≠ [] := by
  by_cases hs : pyStartsWith line "@@" = true
  · by_cases hc : k + 1 > maxHunks
    · simp [truncHunksGo, hs, hc]
    · simp [truncHunksGo, hs, hc]
  · simp [truncHunksGo, hs]

lemma truncHunksGo_count (maxHunks : Nat) :
    ∀ (lines : List String) (k : Nat), k ≤ maxHunks →
      ((truncHunksGo maxHunks lines k).filter (fun l => pyStartsWith l "@@")).length ≤
        maxHunks - k := by
  intro lines
  induction lines with
  | nil => intro k _; simp [truncHunksGo]
  | cons line rest ih =>
    intro k hk
    by_cases hs : pyStartsWith line "@@" = true
    · by_cases hc : k + 1 > maxHunks
      · simp only [truncHunksGo, if_pos hs, if_pos hc, List.filter_cons]
        have hm : pyStartsWith "[TRUNCATED_HUNKS]" "@@" = false := by decide
        simp [hm]
      · simp only [truncHunksGo, if_pos hs, if_neg hc]
        have hk1 : k + 1 ≤ maxHunks := Nat.le_of_not_lt hc
        have hrec := ih (k + 1) hk1
        simp [List.filter_cons, hs]
        omega
    · have hs' : pyStartsWith line "@@" = false := by
        cases h : pyStartsWith line "@@"
        · rfl
        · exact absurd h hs
      simp only [truncHunksGo, if_neg hs]
      simp [List.filter_cons, hs']
      exact ih k hk

/-- Per-file hunk bound: after `_truncate_hunks`, at most `maxHunks`
lines start with `"@@"`. -/
lemma truncate_hunks_bound (d : String) (mh : Nat) :
    hunkLineCount (truncate_hunks d mh) ≤ mh := by
  unfold hunkLineCount truncate_hunks
  have hsplit : pySplitNl (joinNl (truncHunksGo mh (pySplitNl d) 0)) =
      truncHunksGo mh (pySplitNl d) 0 := by
    apply pySplitNl_joinNl
    · rcases he : pySplitNl d with _ | ⟨line, rest⟩
      · exact absurd he (pySplitNl_ne_nil d)
      · exact truncHunksGo_ne_nil mh line rest 0
    · intro p hp
      rcases truncHunksGo_mem mh (pySplitNl d) 0 p hp with h | h
      · exact pySplitNl_mem_no_nl d p h
      · subst h; decide
  rw [hsplit]
  simpa using truncHunksGo_count mh (pySplitNl d) 0 (Nat.zero_le mh)

lemma pyUtf8Len_append (a b : String) :
    pyUtf8Len (a ++ b) = pyUtf8Len a + pyUtf8Len b := by
  unfold pyUtf8Len
  rw [string_data_append, List.map_append, List.sum_append]

lemma pyUtf8Len_joinStr :
    ∀ parts : List String, pyUtf8Len (joinStr parts) = (parts.map pyUtf8Len).sum := by
  intro parts
  induction parts with
  | nil => rfl
  | cons a rest ih => simp [joinStr, pyUtf8Len_append, ih]

lemma budgetLoop_mem (dOf : String → String) (mb mh : Nat) :
    ∀ (fs : List String) (t : Nat) (p : String),
      p ∈ budgetLoop dOf mb mh fs t →
        (∃ f ∈ fs, p = truncate_hunks (dOf f) mh) ∨ p = budget_marker := by
  intro fs
  induction fs with
  | nil => intro t p hp; simp [budgetLoop] at hp
  | cons f rest ih =>
    intro t p hp
    by_cases hc : t + pyUtf8Len (truncate_hunks (dOf f) mh) > mb
    · simp only [budgetLoop, if_pos hc, List.mem_singleton] at hp
      exact Or.inr hp
    · simp only [budgetLoop, if_neg hc, List.mem_cons] at hp
      rcases hp with hp | hp
      · exact Or.inl ⟨f, by simp, hp⟩
      · rcases ih _ p hp with ⟨g, hg, hpg⟩ | h
        · exact Or.inl ⟨g, List.mem_cons_of_mem f hg, hpg⟩
        · exact Or.inr h

lemma budgetLoop_spec (dOf : String → String) (mb mh : Nat) :
    ∀ (fs : List String) (t : Nat), ∃ (n : Nat) (b : Bool),
      n ≤ fs.length ∧
      budgetLoop dOf mb mh fs t =
        ((fs.take n).map (fun f => truncate_hunks (dOf f) mh)) ++
          (if b then [budget_marker] else []) ∧
      (n = 0 ∨
        t + ((fs.take n).map (fun f => pyUtf8Len (truncate_hunks (dOf f) mh))).sum ≤ mb) := by
  intro fs
  induction fs with
  | nil =>
    intro t
    exact ⟨0, false, by simp, by simp [budgetLoop], Or.inl rfl⟩
  | cons f rest ih =>
    intro t
    by_cases hc : t + pyUtf8Len (truncate_hunks (dOf f) mh) > mb
    · exact ⟨0, true, by simp, by simp [budgetLoop, hc], Or.inl rfl⟩
    · rcases ih (t + pyUtf8Len (truncate_hunks (dOf f) mh)) with ⟨n, b, hn, heq, hbd⟩
      refine ⟨n + 1, b, by simpa using hn, ?_, ?_⟩
      · simp only [budgetLoop, if_neg hc, List.take_succ_cons, List.map_cons, List.cons_append]
        rw [heq]
      · right
        rcases hbd with h0 | hle
        · subst h0
          simpa using Nat.le_of_not_lt hc
        · simp only [List.take_succ_cons, List.map_cons, List.sum_cons]
          omega

lemma omitted_header_starts (k : Nat) :
    pyStartsWith (omitted_header k) "OMITTED_FILES_COUNT=" = true := by
  unfold pyStartsWith omitted_header
  rw [string_data_append, string_data_append, List.append_assoc]
  exact isPrefixOf_self_append _ _

lemma omitted_header_ne_marker (k : Nat) : omitted_header k ≠ budget_marker := by
  intro h
  have h1 := omitted_header_starts k
  rw [h] at h1
  have h2 : pyStartsWith budget_marker "OMITTED_FILES_COUNT=" = false := by decide
  rw [h2] at h1
  exact Bool.false_ne_true h1

/-- C4 counterexample: with two changed files, `max_files = 1` and
`max_bytes = 0`, the output is the omitted-files header plus the
budget marker: 48 UTF-8 bytes, exceeding `max_bytes` plus the terminal
marker line (0 + 25 bytes), because `get_budgeted_diff` prepends
`OMITTED_FILES_COUNT=<k>` without counting it against the byte
budget. -/
theorem c4_counterexample :
    pyUtf8Len (get_budgeted_diff (fun _ => "x") ["a", "b"] 1 0 1) = 48 ∧
    pyUtf8Len budget_marker = 25 ∧
    ¬ pyUtf8Len (get_budgeted_diff (fun _ => "x") ["a", "b"] 1 0 1) ≤
        0 + pyUtf8Len budget_marker :=
  ⟨by decide, by decide, by decide⟩

/-- C4 amended: for every changed-file set, per-file-diff oracle and
caps (with per-file diffs not starting with the omitted-files header
text, as no `git diff` output does): each included file contributes at
most `max_hunks_per_file` lines starting with `"@@"`; the output is
assembled, in order, from an optional omitted-files header, at most
`max_files` truncated file diffs, and an optional terminal budget
marker; the total UTF-8 length is at most `max_bytes` plus the
terminal marker line **plus, when files were omitted, the
`OMITTED_FILES_COUNT` header line**; and the header part appears iff
the input file count exceeds `max_files`. -/
theorem c4_amended (dOf : String → String) (files : List String) (mf mb mh : Nat)
    (hclean : ∀ f ∈ files,
      pyStartsWith (truncate_hunks (dOf f) mh) "OMITTED_FILES_COUNT=" = false) :
    (∀ f ∈ files, hunkLineCount (truncate_hunks (dOf f) mh) ≤ mh) ∧
    (∃ (n : Nat) (b : Bool), n ≤ mf ∧
      result_parts dOf files mf mb mh =
        (if files.length > mf then [omitted_header (files.length - mf)] else []) ++
        (((if files.length > mf then files.take mf else files).take n).map
          (fun f => truncate_hunks (dOf f) mh)) ++
        (if b then [budget_marker] else [])) ∧
    pyUtf8Len (get_budgeted_diff dOf files mf mb mh) ≤
      (if files.length > mf then pyUtf8Len (omitted_header (files.length - mf)) else 0) +
        mb + pyUtf8Len budget_marker ∧
    (omitted_header (files.length - mf) ∈ result_parts dOf files mf mb mh ↔
      files.length > mf) := by
  obtain ⟨n, b, hn, heq, hbd⟩ :=
    budgetLoop_spec dOf mb mh (if files.length > mf then files.take mf else files) 0
  have hkept_le : (if files.length > mf then files.take mf else files).length ≤ mf := by
    by_cases hf : files.length > mf
    · rw [if_pos hf]
      simpa [List.length_take] using Nat.min_le_left mf files.length
    · rw [if_neg hf]; omega
  have hparts : result_parts dOf files mf mb mh =
      (if files.length > mf then [omitted_header (files.length - mf)] else []) ++
      budgetLoop dOf mb mh (if files.length > mf then files.take mf else files) 0 := by
    by_cases hf : files.length > mf
    · have homq : 0 < files.length - mf := by omega
      simp [result_parts, hf, homq]
    · simp [result_parts, hf]
  have hsum_map : ((((if files.length > mf then files.take mf else files).take n).map
      (fun f => truncate_hunks (dOf f) mh)).map pyUtf8Len).sum ≤ mb := by
    rw [List.map_map]
    rcases hbd with h0 | hle
    · subst h0; simp
    · simp [Function.comp] at hle ⊢
      exact hle
  refine ⟨fun f _ => truncate_hunks_bound (dOf f) mh,
    ⟨n, b, le_trans hn hkept_le, ?_⟩, ?_, ?_⟩
  · rw [hparts, heq, List.append_assoc]
  · have hlen : pyUtf8Len (get_budgeted_diff dOf files mf mb mh) =
        ((result_parts dOf files mf mb mh).map pyUtf8Len).sum := by
      unfold get_budgeted_diff
      exact pyUtf8Len_joinStr _
    rw [hlen, hparts, heq]
    rw [List.map_append, List.sum_append, List.map_append, List.sum_append]
    have h1 : ((if files.length > mf then [omitted_header (files.length - mf)]
        else []).map pyUtf8Len).sum =
        (if files.length > mf then pyUtf8Len (omitted_header (files.length - mf)) else 0) := by
      by_cases hf : files.length > mf <;> simp [hf]
    have h2 : (((if b then [budget_marker] else []).map pyUtf8Len)).sum ≤
        pyUtf8Len budget_marker := by
      cases b <;> simp
    rw [h1]
    omega
  · constructor
    · intro hmem
      by_contra hf
      rw [hparts] at hmem
      simp only [if_neg hf, List.nil_append] at hmem
      rcases budgetLoop_mem dOf mb mh _ 0 _ hmem with ⟨f, hfmem, hpf⟩ | hpm
      · have h1 := omitted_header_starts (files.length - mf)
        rw [hpf] at h1
        rw [hclean f hfmem] at h1
        exact Bool.false_ne_true h1
      · exact omitted_header_ne_marker _ hpm
    · intro hf
      rw [hparts]
      simp [hf]

/-! ## C10: push always targets the literal remote "origin" -/

lemma step_remote_irrel (env : Env) (cfg : EngineConfig) (r : String) (es : ETrace) :
    step env { cfg with remote := r } es = step env cfg es := rfl

lemma loopGo_remote_irrel (env : Env) (cfg : EngineConfig) (r : String) :
    ∀ (fuel : Nat) (es : ETrace),
      loopGo env { cfg with remote := r } fuel es = loopGo env cfg fuel es := by
  intro fuel
  induction fuel with
  | zero => intro es; rfl
  | succ n ih =>
    intro es
    rw [loopGo_succ, loopGo_succ]
    by_cases h : (es.snapshot.state.is_terminal || es.cancelledFlag) = true
    · simp [h]
    · simp only [Bool.not_eq_true] at h
      simp only [h]
      rw [step_remote_irrel, ih]

lemma update_coordination_comment_ghost (env : Env) (es : ETrace) :
    (update_coordination_comment env es).pushInvocations = es.pushInvocations ∧
    (update_coordination_comment env es).commitMessagesUsed = es.commitMessagesUsed := by
  unfold update_coordination_comment
  cases hp : es.artifacts.prNumber with
  | none => exact ⟨rfl, rfl⟩
  | some p =>
    cases hc : es.artifacts.coordCommentId with
    | some c => exact ⟨rfl, rfl⟩
    | none => exact ⟨rfl, rfl⟩

lemma update_coord_pushes (env : Env) (es : ETrace) :
    (update_coordination_comment env es).pushInvocations = es.pushInvocations :=
  (update_coordination_comment_ghost env es).1

lemma update_coord_msgs (env : Env) (es : ETrace) :
    (update_coordination_comment env es).commitMessagesUsed = es.commitMessagesUsed :=
  (update_coordination_comment_ghost env es).2

/-- The trace carried by a `StepRes`, success or failure. -/
def StepRes.trace : StepRes → ETrace
  | .ok es => es
  | .fail es _ => es

lemma run_implementer_push (env : Env) (cfg : EngineConfig) (es : ETrace) :
    (run_implementer env cfg es).trace.pushInvocations = es.pushInvocations := by
  unfold run_implementer
  cases hw : es.worktreeOnDisk with
  | false => rfl
  | true =>
    cases hi : env.implResult es.implCalls with
    | timedOut => rfl
    | agentError m => rfl
    | ok r =>
      cases ht : extract_tests r with
      | none => simp [ht, StepRes.trace]
      | some ts => simp [ht, StepRes.trace]

lemma run_reviewer_push (env : Env) (cfg : EngineConfig) (es : ETrace) :
    (run_reviewer env cfg es).trace.pushInvocations = es.pushInvocations := by
  unfold run_reviewer
  cases hw : es.worktreeOnDisk with
  | false => rfl
  | true =>
    cases hi : env.revResult es.revCalls with
    | timedOut => rfl
    | agentError m => rfl
    | ok r =>
      cases ht : extract_changes r with
      | none => simp [ht, StepRes.trace]
      | some cs =>
        simp only [ht, StepRes.trace]
        exact (update_coordination_comment_ghost env _).1

lemma commit_push_pr_push (env : Env) (es : ETrace) :
    (commit_push_pr env es).trace.pushInvocations = es.pushInvocations ∨
    (commit_push_pr env es).trace.pushInvocations =
      es.pushInvocations ++ [push_invocation push_default_remote es.snapshot.branch] := by
  cases hh : env.hasChanges es.hasChangesCalls with
  | false =>
    left
    simp [commit_push_pr, hh, StepRes.trace]
  | true =>
    right
    cases hpr : env.findPr es.findPrCalls with
    | none => simp [commit_push_pr, hh, hpr, StepRes.trace, update_coord_pushes]
    | some nu => simp [commit_push_pr, hh, hpr, StepRes.trace, update_coord_pushes]

/-- C10: the engine's behaviour is identical for any two configurations
differing only in `remote` (the engine never reads `EngineConfig.remote`),
and the only push it ever issues is `git push -u origin <branch>` —
the literal default of `GitService.push`, since `_commit_push_pr`
passes no remote argument. -/
theorem c10_push_origin :
    (∀ (env : Env) (cfg : EngineConfig) (r : String) (fuel : Nat) (es : ETrace),
      engine_run env { cfg with remote := r } fuel es = engine_run env cfg fuel es) ∧
    (∀ (env : Env) (cfg : EngineConfig) (es : ETrace),
      (step env cfg es).pushInvocations = es.pushInvocations ∨
      (step env cfg es).pushInvocations =
        es.pushInvocations ++ [push_invocation push_default_remote es.snapshot.branch]) ∧
    push_invocation push_default_remote "b" = ["push", "-u", "origin", "b"] := by
  refine ⟨?_, ?_, rfl⟩
  · intro env cfg r fuel es
    unfold engine_run
    rw [loopGo_remote_irrel]
  · intro env cfg es
    unfold step
    cases hs : es.snapshot.state
    case CREATED => exact Or.inl rfl
    case PREPARE_WORKSPACE =>
      left
      cases hw : es.worktreeOnDisk <;> simp [prepare_workspace, hw, transition_to]
    case IMPLEMENTER_RUNNING =>
      left
      have h := run_implementer_push env cfg es
      cases hres : run_implementer env cfg es with
      | ok es' =>
        rw [hres] at h
        simpa [transition_to] using h
      | fail es' m =>
        rw [hres] at h
        simpa [handle_failure, transition_to, emit] using h
    case COMMIT_PUSH_PR =>
      have h := commit_push_pr_push env es
      cases hres : commit_push_pr env es with
      | ok es' =>
        rw [hres] at h
        simpa [transition_to] using h
      | fail es' m =>
        rw [hres] at h
        simpa [handle_failure, transition_to, emit] using h
    case REVIEWER_RUNNING =>
      left
      have h := run_reviewer_push env cfg es
      cases hres : run_reviewer env cfg es with
      | ok es' =>
        rw [hres] at h
        simp only [StepRes.trace] at h
        by_cases hv : ((es'.snapshot.lastReviewerVerdict.getD .null).isStrEq "approved") = true
        · simp [hv, transition_to, emit, h]
        · simp only [Bool.not_eq_true] at hv
          simp [hv, transition_to, h]
      | fail es' m =>
        rw [hres] at h
        simpa [handle_failure, transition_to, emit] using h
    case CHANGES_REQUESTED => exact Or.inl rfl
    case APPROVED => exact Or.inl rfl
    case FAILED => exact Or.inl rfl
    case CANCELLED => exact Or.inl rfl

/-! ## C3 amended -/

/-- C3 amended: a successful IMPLEMENTER_RUNNING step stores the
implementer's summary and test results on the snapshot and transitions
to COMMIT_PUSH_PR, but the pending commit message is stored only on
the engine instance (`self._commit_message`), not on the snapshot; a
COMMIT_PUSH_PR step run by a fresh engine instance (crash + resume,
where the attribute is absent) therefore commits with the default
message "Agent changes". -/
theorem c3_amended (env : Env) (cfg : EngineConfig) (es es₂ : ETrace)
    (r : List (String × Json)) (ts : List TestResult)
    (h1 : es.snapshot.state = .IMPLEMENTER_RUNNING)
    (h2 : es.worktreeOnDisk = true)
    (h3 : env.implResult es.implCalls = .ok r)
    (h4 : extract_tests r = some ts)
    (h5 : es₂.snapshot.state = .COMMIT_PUSH_PR)
    (h6 : es₂.commitMessageAttr = none)
    (h7 : env.hasChanges es₂.hasChangesCalls = true) :
    (step env cfg es).snapshot.state = .COMMIT_PUSH_PR ∧
    (step env cfg es).snapshot.lastImplementerSummary =
      some (dictGetD r "summary" (.str "")) ∧
    (step env cfg es).snapshot.lastImplementerTests = ts ∧
    (step env cfg es).commitMessageAttr =
      some (dictGetD r "commit_message" (.str "Agent changes")) ∧
    (step env cfg es₂).commitMessagesUsed =
      es₂.commitMessagesUsed ++ [.str "Agent changes"] := by
  have himpl : step env cfg es =
      transition_to
        { es with
          implCalls := es.implCalls + 1,
          snapshot := { es.snapshot with
            lastImplementerSummary := some (dictGetD r "summary" (.str "")),
            lastImplementerTests := ts },
          commitMessageAttr := some (dictGetD r "commit_message" (.str "Agent changes")) }
        .COMMIT_PUSH_PR none := by
    unfold step
    rw [h1]
    unfold run_implementer
    simp [h2, h3, h4]
  have hcommit : (step env cfg es₂).commitMessagesUsed =
      es₂.commitMessagesUsed ++ [.str "Agent changes"] := by
    unfold step
    rw [h5]
    unfold commit_push_pr
    simp only [h7, h6, Bool.not_true, Bool.false_eq_true, if_false, Option.getD]
    cases hpr : env.findPr es₂.findPrCalls with
    | none => simp [hpr, transition_to, update_coord_msgs]
    | some nu => simp [hpr, transition_to, update_coord_msgs]
  refine ⟨?_, ?_, ?_, ?_, hcommit⟩
  · rw [himpl]; rfl
  · rw [himpl]; rfl
  · rw [himpl]; rfl
  · rw [himpl]; rfl

theorem c3_amended_witness :
    extract_tests [("type", .str "implementer_result"),
       ("summary", .str "Fixed the parser"), ("commit_message", .str "Fix parser"),
       ("tests", .arr []), ("notes", .arr [])] = some [] ∧
    ((step c3_env default_cfg c3_trace).snapshot.state = .COMMIT_PUSH_PR ∧
     (step c3_env default_cfg c3_trace).snapshot.lastImplementerSummary =
       some (dictGetD [("type", .str "implementer_result"),
         ("summary", .str "Fixed the parser"), ("commit_message", .str "Fix parser"),
         ("tests", .arr []), ("notes", .arr [])] "summary" (.str "")) ∧
     (step c3_env default_cfg c3_trace).snapshot.lastImplementerTests = [] ∧
     (step c3_env default_cfg c3_trace).commitMessageAttr =
       some (dictGetD [("type", .str "implementer_result"),
         ("summary", .str "Fixed the parser"), ("commit_message", .str "Fix parser"),
         ("tests", .arr []), ("notes", .arr [])] "commit_message" (.str "Agent changes")) ∧
     (step c3_env default_cfg c3_resumed).commitMessagesUsed =
       c3_resumed.commitMessagesUsed ++ [.str "Agent changes"]) :=
  ⟨rfl,
   c3_amended c3_env default_cfg c3_trace c3_resumed
     [("type", .str "implementer_result"),
      ("summary", .str "Fixed the parser"), ("commit_message", .str "Fix parser"),
      ("tests", .arr []), ("notes", .arr [])] []
     rfl rfl rfl rfl rfl rfl rfl⟩

/-! ## C2 amended -/

/-- C2 amended: in every happy-path execution (implementer succeeds
with parseable tests, the worktree has changes, no PR exists yet, and
the first reviewer verdict is `approved`), the run terminates in
APPROVED at iteration 0, `find_pr` is consulted once and exactly one
PR is created, exactly one coordination comment is created **and it is
updated exactly once** (by `_run_reviewer`, with the reviewer verdict),
and the engine-emitted event log is: one `run_created`, five
`state_changed` events reaching APPROVED, then one `run_approved`. -/
theorem c2_amended (env : Env) (cfg : EngineConfig) (k : Nat)
    (rid task slug br : String) (pre : Bool)
    (rImpl rRev : List (String × Json)) (ts : List TestResult) (cs : List RequestedChange)
    (h1 : env.implResult 0 = .ok rImpl)
    (h2 : extract_tests rImpl = some ts)
    (h3 : env.hasChanges 0 = true)
    (h4 : env.findPr 0 = none)
    (h5 : env.revResult 0 = .ok rRev)
    (h6 : dictGetD rRev "verdict" (.str "changes_requested") = .str "approved")
    (h7 : extract_changes rRev = some cs) :
    (engine_run env cfg (k + 5) (initial_trace rid task slug br pre)).snapshot.state =
      .APPROVED ∧
    (engine_run env cfg (k + 5) (initial_trace rid task slug br pre)).snapshot.iteration = 0 ∧
    (engine_run env cfg (k + 5) (initial_trace rid task slug br pre)).findPrCalls = 1 ∧
    (engine_run env cfg (k + 5) (initial_trace rid task slug br pre)).createPrCalls = 1 ∧
    (engine_run env cfg (k + 5) (initial_trace rid task slug br pre)).createCommentCalls = 1 ∧
    (engine_run env cfg (k + 5) (initial_trace rid task slug br pre)).updateCommentCalls = 1 ∧
    (engine_run env cfg (k + 5) (initial_trace rid task slug br pre)).events =
      [.run_created,
       .state_changed .CREATED .PREPARE_WORKSPACE none,
       .state_changed .PREPARE_WORKSPACE .IMPLEMENTER_RUNNING none,
       .state_changed .IMPLEMENTER_RUNNING .COMMIT_PUSH_PR none,
       .state_changed .COMMIT_PUSH_PR .REVIEWER_RUNNING none,
       .state_changed .REVIEWER_RUNNING .APPROVED none,
       .run_approved 0] := by
  have hterm : (loopGo env cfg 5 (initial_trace rid task slug br pre)).snapshot.state =
      .APPROVED := by
    cases pre <;>
      simp [loopGo, step, initial_trace, transition_to, emit, prepare_workspace,
        run_implementer, commit_push_pr, run_reviewer, update_coordination_comment,
        h1, h2, h3, h4, h5, h6, h7, RunState.is_terminal, Json.isStrEq]
  have hcanc : (loopGo env cfg 5 (initial_trace rid task slug br pre)).cancelledFlag =
      false := by
    cases pre <;>
      simp [loopGo, step, initial_trace, transition_to, emit, prepare_workspace,
        run_implementer, commit_push_pr, run_reviewer, update_coordination_comment,
        h1, h2, h3, h4, h5, h6, h7, RunState.is_terminal, Json.isStrEq]
  have hcomp : engine_run env cfg (k + 5) (initial_trace rid task slug br pre) =
      loopGo env cfg 5 (initial_trace rid task slug br pre) := by
    unfold engine_run
    rw [Nat.add_comm k 5, loopGo_append]
    rw [loopGo_halt env cfg k _ (by rw [hterm]; rfl)]
    simp [hcanc]
  rw [hcomp]
  cases pre <;>
    simp [loopGo, step, initial_trace, transition_to, emit, prepare_workspace,
      run_implementer, commit_push_pr, run_reviewer, update_coordination_comment,
      h1, h2, h3, h4, h5, h6, h7, RunState.is_terminal, Json.isStrEq]

theorem c2_amended_witness :
    happy_env.findPr 0 = none ∧
    (engine_run happy_env default_cfg (0 + 5)
        (initial_trace "20260201-143012-a1b2c3d4" "Add user authentication"
          "add-user-authentication"
          "agent/20260201-143012-a1b2c3d4-add-user-authentication" false)).snapshot.state =
      .APPROVED ∧
    (engine_run happy_env default_cfg (0 + 5)
        (initial_trace "20260201-143012-a1b2c3d4" "Add user authentication"
          "add-user-authentication"
          "agent/20260201-143012-a1b2c3d4-add-user-authentication" false)).updateCommentCalls =
      1 :=
  ⟨rfl,
   (c2_amended happy_env default_cfg 0 "20260201-143012-a1b2c3d4"
      "Add user authentication" "add-user-authentication"
      "agent/20260201-143012-a1b2c3d4-add-user-authentication" false
      [("type", .str "implementer_result"),
       ("summary", .str "Implemented user authentication"),
       ("commit_message", .str "Add user authentication"),
       ("tests", .arr [.obj [("command", .str "pytest"), ("result", .str "pass")]]),
       ("notes", .arr [])]
      [("type", .str "reviewer_result"), ("verdict", .str "approved"),
       ("requested_changes", .arr []), ("notes", .arr [])]
      [⟨.str "pytest", .str "pass", .str ""⟩] []
      rfl rfl rfl rfl rfl rfl rfl).1,
   (c2_amended happy_env default_cfg 0 "20260201-143012-a1b2c3d4"
      "Add user authentication" "add-user-authentication"
      "agent/20260201-143012-a1b2c3d4-add-user-authentication" false
      [("type", .str "implementer_result"),
       ("summary", .str "Implemented user authentication"),
       ("commit_message", .str "Add user authentication"),
       ("tests", .arr [.obj [("command", .str "pytest"), ("result", .str "pass")]]),
       ("notes", .arr [])]
      [("type", .str "reviewer_result"), ("verdict", .str "approved"),
       ("requested_changes", .arr []), ("notes", .arr [])]
      [⟨.str "pytest", .str "pass", .str ""⟩] []
      rfl rfl rfl rfl rfl rfl rfl).2.2.2.2.2.1⟩

theorem c4_amended_witness :
    (∀ f ∈ ["a"],
      pyStartsWith (truncate_hunks ((fun _ => "@@ -1 +1 @@\n-x\n+y") f) 8)
        "OMITTED_FILES_COUNT=" = false) ∧
    ((∀ f ∈ ["a"],
        hunkLineCount (truncate_hunks ((fun _ => "@@ -1 +1 @@\n-x\n+y") f) 8) ≤ 8) ∧
     (∃ (n : Nat) (b : Bool), n ≤ 2 ∧
        result_parts (fun _ => "@@ -1 +1 @@\n-x\n+y") ["a"] 2 100 8 =
          (if (["a"] : List String).length > 2
            then [omitted_header ((["a"] : List String).length - 2)] else []) ++
          (((if (["a"] : List String).length > 2 then (["a"] : List String).take 2
              else ["a"]).take n).map
            (fun f => truncate_hunks ((fun _ => "@@ -1 +1 @@\n-x\n+y") f) 8)) ++
          (if b then [budget_marker] else [])) ∧
     pyUtf8Len (get_budgeted_diff (fun _ => "@@ -1 +1 @@\n-x\n+y") ["a"] 2 100 8) ≤
        (if (["a"] : List String).length > 2
          then pyUtf8Len (omitted_header ((["a"] : List String).length - 2)) else 0) +
          100 + pyUtf8Len budget_marker ∧
     (omitted_header ((["a"] : List String).length - 2) ∈
        result_parts (fun _ => "@@ -1 +1 @@\n-x\n+y") ["a"] 2 100 8 ↔
      (["a"] : List String).length > 2)) :=
  ⟨by decide, c4_amended (fun _ => "@@ -1 +1 @@\n-x\n+y") ["a"] 2 100 8 (by decide)⟩

end VibeOrch
